import Mathlib

/-!
Verification development for the fit-AI repository's rate-limiting and
failure-isolation layer.  Python source files are embedded shallowly:
pure helpers become Lean functions, the limiter's counter store becomes
explicit state passing, HTTP responses become a (status, detail) record,
and Python floats are modelled as rationals.  Each definition's doc
comment names the source location it embeds.
-/

namespace FitAgent

/-- An HTTP response, reduced to the status code and the JSON body's
detail string (the only body field the embedded handlers produce). -/
structure Response where
  status : Nat
  detail : String
deriving DecidableEq, Repr

/-- An authenticated principal attached to the request context by the
authentication collaborator.  In Python the object stored at
request.state.user may or may not expose an id attribute; the field
is an Option so that hasattr(user, "id") is isSome. -/
structure Principal where
  id : Option String
deriving DecidableEq, Repr

/-- The slice of a Starlette Request that the rate-limit layer reads:
request.state.user (None when unauthenticated), request.client.host
(None when no client is attached), the URL path, and the headers. -/
structure RequestCtx where
  stateUser : Option Principal
  clientHost : Option String
  path : String
  headers : List (String × String)
deriving DecidableEq, Repr

/-- Embeds slowapi.util.get_remote_address: returns request.client.host,
falling back to "127.0.0.1" when the client or its host is missing or
empty (Python truthiness on the host string). -/
def get_remote_address (r : RequestCtx) : String :=
  match r.clientHost with
  | some h => if h = "" then "127.0.0.1" else h
  | none => "127.0.0.1"

/-- Embeds get_user_identifier, src/rate_limit.py lines 13-32: returns
"user:" ++ id when request.state.user is attached and has an id
(Python: if user and hasattr(user, "id")), else the remote address. -/
def get_user_identifier (r : RequestCtx) : String :=
  match r.stateUser with
  | some u =>
      match u.id with
      | some i => "user:" ++ i
      | none => get_remote_address r
  | none => get_remote_address r

/-- Embeds get_ip_only, src/rate_limit.py lines 35-44: always the remote
address, ignoring authentication state. -/
def get_ip_only (r : RequestCtx) : String :=
  get_remote_address r

/-- A parsed rate expression "amount/window": the count allowed per
window, and the window length in seconds. -/
structure QuotaRule where
  amount : Nat
  windowSeconds : Nat
deriving DecidableEq, Repr

/-- Seconds in the "hour" window of a rate expression. -/
def hourSeconds : Nat := 3600

/-- Seconds in the "day" window of a rate expression. -/
def daySeconds : Nat := 86400

/-- Embeds the RATE_LIMITS dict, src/rate_limit.py lines 86-99, with
each rate expression parsed: "5/hour" is 5 per 3600 s, "5/day" is
5 per 86400 s. -/
def RATE_LIMITS : String → Option QuotaRule
  | "auth_register" => some ⟨5, hourSeconds⟩
  | "auth_login" => some ⟨10, hourSeconds⟩
  | "auth_reset_password" => some ⟨3, hourSeconds⟩
  | "ai_workout_plan" => some ⟨5, daySeconds⟩
  | "ai_nutrition_plan" => some ⟨5, daySeconds⟩
  | "data_post" => some ⟨100, hourSeconds⟩
  | "data_get" => some ⟨200, hourSeconds⟩
  | _ => none

/-- Embeds RATE_LIMIT_EXEMPT_IPS, src/rate_limit.py lines 107-112. -/
def RATE_LIMIT_EXEMPT_IPS : List String := ["127.0.0.1", "::1"]

/-- Embeds is_exempt_from_rate_limit, src/rate_limit.py lines 115-133:
true when the path is "/health" or the remote address is in the
exemption list. -/
def is_exempt_from_rate_limit (r : RequestCtx) : Bool :=
  if r.path = "/health" then true
  else if RATE_LIMIT_EXEMPT_IPS.contains (get_remote_address r) then true
  else false

/-- The structured record that log_rate_limit_hit attaches to its log
line via the extra dict: identifier, path, limit, headers. -/
structure RateLimitHitRecord where
  identifier : String
  path : String
  limit : String
  headers : List (String × String)
deriving DecidableEq, Repr

/-- Embeds log_rate_limit_hit, src/rate_limit.py lines 57-76: builds the
structured extra dict with get_user_identifier, the request path, the
limit expression, and dict(request.headers) verbatim. -/
def log_rate_limit_hit (r : RequestCtx) (lim : String) : RateLimitHitRecord :=
  ⟨get_user_identifier r, r.path, lim, r.headers⟩

/-- Modelled from the spec: the per-(key, rule) counter kept by the
third-party limiter engine (slowapi with the limits library's
fixed-window strategy and memory storage) that src/rate_limit.py
lines 49-54 configure; the engine's own source is outside this
repository.  Spec section 4.4: a count and the time at which the
current window expires. -/
structure CounterState where
  count : Nat
  expiry : Nat
deriving DecidableEq, Repr

/-- The count visible in the current window at time now: the stored
count while the window has not expired, else 0 (spec section 4.4:
lazy reset, the counter is treated as reset once the window has
elapsed). -/
def windowCount (st : Option CounterState) (now : Nat) : Nat :=
  match st with
  | some c => if now < c.expiry then c.count else 0
  | none => 0

/-- Modelled from the spec: one hit of the fixed-window limiter (spec
section 4.4).  The counter for the window is created on first use
with expiry now + window, incremented unconditionally (a rejected
attempt still counts), and lazily reset when the stored expiry has
passed; the request is allowed when the post-increment count is
within the rule's amount. -/
def hit (rule : QuotaRule) (st : Option CounterState) (now : Nat) :
    Bool × CounterState :=
  let c : CounterState :=
    match st with
    | some c0 =>
        if now < c0.expiry then ⟨c0.count + 1, c0.expiry⟩
        else ⟨1, now + rule.windowSeconds⟩
    | none => ⟨1, now + rule.windowSeconds⟩
  (decide (c.count ≤ rule.amount), c)

/-- Embeds slowapi's default RateLimitExceeded handler, registered in
src/main.py line 52: a 429 response whose detail carries the limit
expression; it performs no logging call into src/rate_limit.py. -/
def rate_limit_exceeded_handler (d : String) : Response :=
  ⟨429, "Rate limit exceeded: " ++ d⟩

/-- The application's routes, as registered in src/main.py lines
119-125 from src/api/auth.py, src/api/data.py and src/api/ai.py. -/
inductive Route
  | authRegister
  | authJwtLogin
  | authResetPassword
  | aiGenerateWorkoutPlan
  | aiGenerateNutritionPlan
  | dataPostWeight
  | dataGetWeight
  | dataPostMeals
  | dataGetMeals
  | dataPostWorkouts
  | dataGetWorkouts
  | dataRecentActivity
  | health
deriving DecidableEq, Repr

/-- The rate-limit rule attached to each route by a limiter.limit
decorator.  Only the two AI endpoints are decorated
(src/api/ai.py lines 44 and 73); src/api/auth.py and
src/api/data.py attach no decorator to any route, and the /health
endpoint in src/main.py has none. -/
def routeLimit : Route → Option QuotaRule
  | .aiGenerateWorkoutPlan => RATE_LIMITS "ai_workout_plan"
  | .aiGenerateNutritionPlan => RATE_LIMITS "ai_nutrition_plan"
  | _ => none

/-- Embeds default_limits of the Limiter constructed in
src/rate_limit.py lines 49-54. -/
def default_limits : List QuotaRule := [⟨1000, hourSeconds⟩]

/-- Whether src/main.py installs slowapi's SlowAPIMiddleware.  It does
not (lines 50-52 only set app.state.limiter and register the
exception handler), and slowapi enforces default_limits on
undecorated routes only through that middleware. -/
def slowapi_middleware_installed : Bool := false

/-- The rule actually enforced on a route: the decorator-attached rule
when present; otherwise the first default limit, but only when the
middleware that applies defaults is installed. -/
def effectiveLimit (rt : Route) : Option QuotaRule :=
  match routeLimit rt with
  | some q => some q
  | none =>
      if slowapi_middleware_installed then default_limits.head? else none

/-- The human-readable form of a rule that slowapi places in the
RateLimitExceeded detail, e.g. "5 per 86400 seconds". -/
def ruleDetail (q : QuotaRule) : String :=
  toString q.amount ++ " per " ++ toString q.windowSeconds ++ " seconds"

/-- The limiter's in-memory counter store, keyed by (route, identifier)
as the storage key the engine derives per decorated endpoint. -/
abbrev Store : Type := List ((Route × String) × CounterState)

/-- Looks up the counter for a key in the store. -/
def lookupCounter : Store → Route × String → Option CounterState
  | [], _ => none
  | (k, c) :: rest, key => if k = key then some c else lookupCounter rest key

/-- Writes the counter for a key, replacing an existing entry. -/
def setCounter : Store → Route × String → CounterState → Store
  | [], key, c => [(key, c)]
  | (k, c0) :: rest, key, c =>
      if k = key then (key, c) :: rest else (k, c0) :: setCounter rest key c

/-- Outcome of one request through the enforcement point: the response
sent, the updated counter store, and the structured rate-limit-hit
records emitted while handling it. -/
structure StepResult where
  response : Response
  store : Store
  emitted : List RateLimitHitRecord

/-- One request through the application as configured in src/main.py:
routes without an enforced rule run their handler untouched; a
route with a rule resolves the key with get_user_identifier (the
key_func of the limiter, src/rate_limit.py line 50 — no decorated
route overrides it), hits the counter, and on rejection returns the
response of slowapi's default handler, which emits no
RateLimitHitRecord (log_rate_limit_hit has no caller).  The
exemption helper is_exempt_from_rate_limit likewise has no caller,
so no branch here consults it. -/
def processRequest (s : Store) (r : RequestCtx) (rt : Route) (now : Nat)
    (handlerResp : Response) : StepResult :=
  match effectiveLimit rt with
  | none => ⟨handlerResp, s, []⟩
  | some rule =>
      let key := get_user_identifier r
      let res := hit rule (lookupCounter s (rt, key)) now
      ⟨if res.1 then handlerResp else rate_limit_exceeded_handler (ruleDetail rule),
       setCounter s (rt, key) res.2, []⟩

/-- The store after n identical requests (same context, route, time and
handler response). -/
def processCount (s : Store) (r : RequestCtx) (rt : Route) (now : Nat)
    (handlerResp : Response) : Nat → Store
  | 0 => s
  | n + 1 => (processRequest (processCount s r rt now handlerResp n) r rt now handlerResp).store

/-- The concrete subclass of FitAgentException an error was raised as
(src/exceptions.py lines 27-79), or the base class itself. -/
inductive ErrKind
  | validation
  | authentication
  | authorization
  | notFound
  | conflict
  | businessLogic
  | aiService
  | externalService
  | rateLimit
  | baseFitAgent
deriving DecidableEq, Repr

/-- Embeds FitAgentException, src/exceptions.py lines 6-24, tagged with
the subclass it was raised as: technical message, optional
user-facing message, and a details dict. -/
structure FitAgentException where
  kind : ErrKind
  message : String
  userMessage : Option String
  details : List (String × String)
deriving DecidableEq, Repr

/-- Embeds the user_message attribute set in the constructor:
user_message or message (src/exceptions.py line 22). -/
def FitAgentException.user_message (e : FitAgentException) : String :=
  e.userMessage.getD e.message

/-- Embeds the exception-handler dispatch of src/main.py lines 62-115.
FastAPI selects the handler registered for the most specific class:
every subclass except ExternalServiceError has its own handler
returning its fixed status with exc.user_message as the body
detail; ExternalServiceError has no handler of its own, so it falls
through to the generic FitAgentException handler (lines 108-115),
which returns 500 with the fixed body "An unexpected error
occurred". -/
def dispatch (e : FitAgentException) : Response :=
  match e.kind with
  | .validation => ⟨400, e.user_message⟩
  | .authentication => ⟨401, e.user_message⟩
  | .authorization => ⟨403, e.user_message⟩
  | .notFound => ⟨404, e.user_message⟩
  | .conflict => ⟨409, e.user_message⟩
  | .businessLogic => ⟨422, e.user_message⟩
  | .rateLimit => ⟨429, e.user_message⟩
  | .aiService => ⟨503, e.user_message⟩
  | .externalService => ⟨500, "An unexpected error occurred"⟩
  | .baseFitAgent => ⟨500, "An unexpected error occurred"⟩

/-- What the awaited AI provider call does on one invocation: return a
plan, raise an already-typed AIServiceError, or raise some other
exception with the given text. -/
inductive AIOutcome
  | ok (plan : String)
  | aiServiceError (e : FitAgentException)
  | otherError (msg : String)
deriving Repr

/-- Embeds the failure handling of create_workout_plan, src/api/ai.py
lines 51-69: a success returns the plan; an AIServiceError is
re-raised unchanged; any other exception is wrapped as an
AIServiceError with the raw text only in the technical message, the
fixed user_message, and the user id in details. -/
def create_workout_plan (uid : String) (call : AIOutcome) :
    Except FitAgentException String :=
  match call with
  | .ok plan => .ok plan
  | .aiServiceError e => .error e
  | .otherError m =>
      .error ⟨.aiService, "Workout plan generation failed: " ++ m,
        some "Failed to generate workout plan. Please try again later.",
        [("user_id", uid)]⟩

/-- Embeds the server-side log lines produced on the exception path of
create_workout_plan: logger.exception names the affected user
(src/api/ai.py line 64), and the dispatch handler logs the
technical message (src/main.py line 104). -/
def create_workout_plan_logs (uid : String) (call : AIOutcome) : List String :=
  match call with
  | .otherError m =>
      ["Workout plan generation failed for user " ++ uid,
       "AI service error: Workout plan generation failed: " ++ m]
  | _ => []

/-- The response the client sees from the workout-plan endpoint: the
plan on success, else the dispatched rendering of the raised
exception. -/
def workoutPlanResponse (uid : String) (call : AIOutcome) : Response :=
  match create_workout_plan uid call with
  | .ok plan => ⟨200, plan⟩
  | .error e => dispatch e

/-- Embeds NutritionPlanRequest, src/api/ai.py lines 32-41, with Python
floats modelled as rationals.  activity_level is a Literal of five
values; str fields carry their length bounds as Field constraints. -/
structure NutritionPlanRequest where
  user_goals : String
  weight_lbs : Rat
  activity_level : String
  dietary_preferences : Option String
deriving DecidableEq, Repr

/-- The pydantic validation pass over NutritionPlanRequest: the list of
field names that violate their declared constraints
(min_length 1 / max_length 1000 on user_goals, ge 50 / le 700 on
weight_lbs, the Literal set on activity_level, max_length 500 on
dietary_preferences). -/
def nutritionPlanRequestErrors (r : NutritionPlanRequest) : List String :=
  (if r.user_goals.length < 1 ∨ r.user_goals.length > 1000
    then ["user_goals"] else []) ++
  (if ¬((50 : Rat) ≤ r.weight_lbs ∧ r.weight_lbs ≤ (700 : Rat))
    then ["weight_lbs"] else []) ++
  (if ¬(["sedentary", "light", "moderate", "active", "very_active"].contains
      r.activity_level)
    then ["activity_level"] else []) ++
  (match r.dietary_preferences with
   | some d => if d.length > 500 then ["dietary_preferences"] else []
   | none => [])

/-- What FastAPI returns when a request body fails schema validation:
src/main.py registers no RequestValidationError handler, so the
framework default applies — status 422 with the failing fields
listed in the body.  The embedded detail joins the field names. -/
def schemaValidationResponse (fields : List String) : Response :=
  ⟨422, "validation error: " ++ String.intercalate ", " fields⟩

/-- The nutrition-plan endpoint as the client sees it: schema
validation first (422 on failure, before any handler logic), then
the handler path of src/api/ai.py lines 80-96, which mirrors
create_workout_plan with the nutrition messages. -/
def nutritionPlanEndpoint (uid : String) (r : NutritionPlanRequest)
    (call : AIOutcome) : Response :=
  match nutritionPlanRequestErrors r with
  | [] =>
      match call with
      | .ok plan => ⟨200, plan⟩
      | .aiServiceError e => dispatch e
      | .otherError m =>
          dispatch ⟨.aiService, "Nutrition plan generation failed: " ++ m,
            some "Failed to generate nutrition plan. Please try again later.",
            [("user_id", uid)]⟩
  | fields => schemaValidationResponse fields

/-- Embeds WeightLogCreate, src/schemas.py lines 70-76: a date, two
optional measurements and a measurements dict.  No Field constraint
is declared on any field — in particular weight_lbs carries no
range. -/
structure WeightLogCreate where
  date : Nat
  weight_lbs : Option Rat
  body_fat_pct : Option Rat
  measurements : List (String × Rat)
deriving DecidableEq, Repr

/-- The pydantic validation pass over WeightLogCreate: with no declared
constraints, every well-typed payload passes, so the error list is
empty for all inputs. -/
def weightLogCreateErrors (_ : WeightLogCreate) : List String := []

/-- Embeds the WeightLog table row, src/models/nutrition.py lines
12-23 (floats as rationals, datetimes as Nat, the JSON measurements
dict as an association list). -/
structure WeightLog where
  id : Nat
  user_id : String
  date : Nat
  weight_lbs : Option Rat
  body_fat_pct : Option Rat
  measurements : List (String × Rat)
deriving DecidableEq, Repr

/-- Embeds log_weight, src/api/data.py lines 53-77: once the payload
has passed schema validation the handler unconditionally constructs
a WeightLog row from it for the current user and commits it; the
response echoes the row.  Returns the response and the database
after the write. -/
def log_weight (db : List WeightLog) (uid : String) (w : WeightLogCreate)
    (newId : Nat) : Response × List WeightLog :=
  let row : WeightLog := ⟨newId, uid, w.date, w.weight_lbs, w.body_fat_pct,
    w.measurements⟩
  (⟨200, "weight log " ++ toString newId⟩, db ++ [row])

/-- The POST /api/weight endpoint as the client sees it: pydantic
validation of the body first (422 on failure, no handler run), then
log_weight.  Returns the response and the database afterwards. -/
def postWeightEndpoint (db : List WeightLog) (uid : String)
    (w : WeightLogCreate) (newId : Nat) : Response × List WeightLog :=
  match weightLogCreateErrors w with
  | [] => log_weight db uid w newId
  | fields => (schemaValidationResponse fields, db)

/-- Insertion of one element into a list sorted descending by the
given key. -/
def insertByDesc (key : α → Nat) (a : α) : List α → List α
  | [] => [a]
  | b :: rest =>
      if key b ≤ key a then a :: b :: rest
      else b :: insertByDesc key a rest

/-- Sorts a list descending by the given key (the embedding of the
order_by(... .desc()) clause). -/
def sortByDesc (key : α → Nat) : List α → List α
  | [] => []
  | a :: rest => insertByDesc key a (sortByDesc key rest)

/-- Embeds the query of get_weight_logs, src/api/data.py lines 89-95:
select WeightLog where user_id == user.id, order by date
descending, limit. -/
def get_weight_logs (db : List WeightLog) (uid : String) (lim : Nat) :
    List WeightLog :=
  (sortByDesc WeightLog.date (db.filter (fun w => w.user_id = uid))).take lim

/-- Embeds the MealLog table row, src/models/nutrition.py lines 26-42. -/
structure MealLog where
  id : Nat
  user_id : String
  date : Nat
  meal_type : Option String
  description : Option String
  protein_g : Option Rat
  carbs_g : Option Rat
  fat_g : Option Rat
  calories : Option Int
deriving DecidableEq, Repr

/-- Embeds the query of get_meal_logs, src/api/data.py lines 171-177:
select MealLog where user_id == user.id, order by date descending,
limit. -/
def get_meal_logs (db : List MealLog) (uid : String) (lim : Nat) :
    List MealLog :=
  (sortByDesc MealLog.date (db.filter (fun m => m.user_id = uid))).take lim

/-- Embeds the WorkoutSession table row, src/models/workout.py lines
48-62 (the optional completed_date indexed for ordering). -/
structure WorkoutSession where
  id : Nat
  user_id : String
  workout_plan_id : Option Nat
  scheduled_date : Option Nat
  completed_date : Option Nat
  duration_minutes : Option Nat
  overall_rpe : Option Nat
  notes : Option String
deriving DecidableEq, Repr

/-- Embeds the query of get_workout_sessions, src/api/data.py lines
256-262: select WorkoutSession where user_id == user.id, order by
completed_date descending, limit (a missing completed_date sorts as
0, matching NULLs ordering last under descending order). -/
def get_workout_sessions (db : List WorkoutSession) (uid : String)
    (lim : Nat) : List WorkoutSession :=
  (sortByDesc (fun w => w.completed_date.getD 0)
    (db.filter (fun w => w.user_id = uid))).take lim

/-- A fixed successful handler response used to exercise the
enforcement point. -/
def okPlanResponse : Response := ⟨200, "workout plan"⟩

/-- A request to the decorated AI workout-plan endpoint from the
loopback address, which RATE_LIMIT_EXEMPT_IPS lists as exempt. -/
def exemptAiRequest : RequestCtx :=
  ⟨some ⟨some "u1"⟩, some "127.0.0.1", "/api/ai/generate-workout-plan", []⟩

/-- A request to the decorated AI workout-plan endpoint carrying a
bearer credential in its headers. -/
def aiRequestWithToken : RequestCtx :=
  ⟨some ⟨some "u2"⟩, some "198.51.100.7", "/api/ai/generate-workout-plan",
    [("authorization", "Bearer secret-token-123")]⟩

/-- A nutrition-plan request whose weight_lbs is 1000, above the
declared 50 to 700 range. -/
def overweightNutritionRequest : NutritionPlanRequest :=
  ⟨"gain muscle", 1000, "active", none⟩

theorem hit_count_eq (rule : QuotaRule) (st : Option CounterState) (now : Nat) :
    (hit rule st now).2.count = windowCount st now + 1 := by
  rcases st with _ | c0
  · rfl
  · by_cases h : now < c0.expiry <;> simp [hit, windowCount, h]

theorem hit_allowed_eq (rule : QuotaRule) (st : Option CounterState) (now : Nat) :
    (hit rule st now).1 = decide (windowCount st now + 1 ≤ rule.amount) := by
  rcases st with _ | c0
  · rfl
  · by_cases h : now < c0.expiry <;> simp [hit, windowCount, h]

/-- C1: for every (key, rule) pair the limiter follows the
Open/Tripped fixed-window state machine: the counter always
increments by exactly one; a request whose in-window pre-increment
count is below the rule's amount is allowed; a request that would
take the count strictly above the amount is rejected, the
registered handler rendering status 429, while the counter still
increments; and once the stored window has elapsed the next request
is allowed (for any positive limit) even if the prior window was
exhausted. -/
theorem C1_fixed_window_state_machine (rule : QuotaRule)
    (st : Option CounterState) (now : Nat) :
    ((hit rule st now).2.count = windowCount st now + 1)
    ∧ (windowCount st now < rule.amount →
        (hit rule st now).1 = true
        ∧ (hit rule st now).2.count = windowCount st now + 1)
    ∧ (rule.amount < windowCount st now + 1 →
        (hit rule st now).1 = false
        ∧ (rate_limit_exceeded_handler (ruleDetail rule)).status = 429
        ∧ (hit rule st now).2.count = windowCount st now + 1)
    ∧ (∀ c, st = some c → c.expiry ≤ now → 0 < rule.amount →
        (hit rule st now).1 = true) := by
  have hc := hit_count_eq rule st now
  have ha := hit_allowed_eq rule st now
  refine ⟨hc, ?_, ?_, ?_⟩
  · intro h
    refine ⟨?_, hc⟩
    rw [ha]
    simp only [decide_eq_true_eq]
    omega
  · intro h
    refine ⟨?_, rfl, hc⟩
    rw [ha]
    simp only [decide_eq_false_iff_not]
    omega
  · intro c hst hexp hpos
    have hnl : ¬ now < c.expiry := by omega
    have hz : windowCount st now = 0 := by
      rw [hst]
      simp [windowCount, hnl]
    rw [ha, hz]
    simp only [decide_eq_true_eq]
    omega

/-- C1 witness: the state machine evaluated at concrete states of an
ai_workout_plan-shaped rule (5 per 86400 s): under quota allows,
over quota rejects, and an elapsed window admits again. -/
theorem C1_fixed_window_state_machine_witness :
    (hit ⟨5, 86400⟩ (some ⟨3, 1000⟩) 500).1 = true
    ∧ (hit ⟨5, 86400⟩ (some ⟨5, 1000⟩) 500).1 = false
    ∧ (hit ⟨5, 86400⟩ (some ⟨5, 1000⟩) 2000).1 = true := by
  refine ⟨?_, ?_, ?_⟩
  · exact ((C1_fixed_window_state_machine ⟨5, 86400⟩ (some ⟨3, 1000⟩) 500).2.1
      (by decide)).1
  · exact ((C1_fixed_window_state_machine ⟨5, 86400⟩ (some ⟨5, 1000⟩) 500).2.2.1
      (by decide)).1
  · exact (C1_fixed_window_state_machine ⟨5, 86400⟩ (some ⟨5, 1000⟩) 2000).2.2.2
      ⟨5, 1000⟩ rfl (by decide) (by decide)

/-- C2: evaluation of the code at the claim's failing input.  The
5/10/3 per-hour presets exist in RATE_LIMITS, but no auth route
carries a limiter decorator, so enforcement never fires there: a
login request always gets its handler's own response with the
counter store untouched, and eleven logins in a row leave the store
unchanged — the eleventh is never answered 429. -/
theorem C2_auth_routes_not_rate_limited (s : Store) (r : RequestCtx)
    (now : Nat) (resp : Response) :
    RATE_LIMITS "auth_register" = some ⟨5, 3600⟩
    ∧ RATE_LIMITS "auth_login" = some ⟨10, 3600⟩
    ∧ RATE_LIMITS "auth_reset_password" = some ⟨3, 3600⟩
    ∧ routeLimit .authRegister = none
    ∧ routeLimit .authJwtLogin = none
    ∧ routeLimit .authResetPassword = none
    ∧ processRequest s r .authJwtLogin now resp = ⟨resp, s, []⟩
    ∧ processCount s r .authJwtLogin now resp 11 = s :=
  ⟨rfl, rfl, rfl, rfl, rfl, rfl, rfl, rfl⟩

/-- C3: evaluation of the code at the claim's failing input.  An
ExternalServiceError has no handler of its own in src/main.py, so
it falls through to the generic FitAgentException handler and is
rendered 500 with the fixed generic body — not 503 with its
user-facing message as the claim (and the class docstring)
state. -/
theorem C3_external_service_error_renders_500 :
    dispatch ⟨.externalService, "upstream billing service down",
      some "Service temporarily unavailable", []⟩
      = ⟨500, "An unexpected error occurred"⟩ := rfl

/-- C4: evaluation of the code at the claim's failing input.  A
request from the exempt loopback address to the decorated AI
endpoint is counted (its first hit creates counter state) and its
sixth request in a day is rejected 429: is_exempt_from_rate_limit
classifies it exempt but has no caller in the enforcement path. -/
theorem C4_exempt_ip_still_counted :
    is_exempt_from_rate_limit exemptAiRequest = true
    ∧ lookupCounter
        (processCount [] exemptAiRequest .aiGenerateWorkoutPlan 0 okPlanResponse 1)
        (.aiGenerateWorkoutPlan, "user:u1") = some ⟨1, 86400⟩
    ∧ (processRequest
        (processCount [] exemptAiRequest .aiGenerateWorkoutPlan 0 okPlanResponse 5)
        exemptAiRequest .aiGenerateWorkoutPlan 0 okPlanResponse).response.status
        = 429 := by decide

/-- C5 counterexample: a sixth AI request in one day is rejected with
status 429, yet the emission list of the enforcement path is empty
— no structured diagnostic record is produced on the rejection —
and the record log_rate_limit_hit would build contains the bearer
credential verbatim, not redacted. -/
theorem C5_no_structured_record_on_rejection :
    (processRequest
        (processCount [] aiRequestWithToken .aiGenerateWorkoutPlan 0 okPlanResponse 5)
        aiRequestWithToken .aiGenerateWorkoutPlan 0 okPlanResponse).response.status
        = 429
    ∧ (processRequest
        (processCount [] aiRequestWithToken .aiGenerateWorkoutPlan 0 okPlanResponse 5)
        aiRequestWithToken .aiGenerateWorkoutPlan 0 okPlanResponse).emitted = []
    ∧ (log_rate_limit_hit aiRequestWithToken "5/day").headers
        = [("authorization", "Bearer secret-token-123")] := by decide

/-- C5 (amended): the registered rejection handler is the limiter
library's default, which emits no structured diagnostic record on
any request; the repository's log_rate_limit_hit helper, never
invoked on rejection, builds a record of identifier, path, matched
rule and the raw, unredacted request headers. -/
theorem C5_rejection_reporting (s : Store) (r : RequestCtx) (rt : Route)
    (now : Nat) (resp : Response) (lim : String) :
    (processRequest s r rt now resp).emitted = []
    ∧ log_rate_limit_hit r lim
        = ⟨get_user_identifier r, r.path, lim, r.headers⟩ := by
  constructor
  · cases heff : effectiveLimit rt <;> simp [processRequest, heff]
  · rfl

/-- C6: evaluation of the code at the claim's failing input.  The
100/hour and 200/hour presets exist in RATE_LIMITS and the default
1000/hour in default_limits, but no data route carries a limiter
decorator and the middleware that would enforce defaults is not
installed, so a data request always gets its handler's own response
with the counter store untouched — the 101st write in an hour is
never answered 429. -/
theorem C6_data_routes_not_rate_limited (s : Store) (r : RequestCtx)
    (now : Nat) (resp : Response) :
    RATE_LIMITS "data_post" = some ⟨100, 3600⟩
    ∧ RATE_LIMITS "data_get" = some ⟨200, 3600⟩
    ∧ default_limits = [⟨1000, 3600⟩]
    ∧ routeLimit .dataPostWeight = none
    ∧ routeLimit .dataGetWeight = none
    ∧ routeLimit .dataPostMeals = none
    ∧ routeLimit .dataGetMeals = none
    ∧ routeLimit .dataPostWorkouts = none
    ∧ routeLimit .dataGetWorkouts = none
    ∧ effectiveLimit .dataPostWeight = none
    ∧ effectiveLimit .dataGetWeight = none
    ∧ processRequest s r .dataPostWeight now resp = ⟨resp, s, []⟩
    ∧ processRequest s r .dataGetWeight now resp = ⟨resp, s, []⟩ :=
  ⟨rfl, rfl, rfl, rfl, rfl, rfl, rfl, rfl, rfl, rfl, rfl, rfl, rfl⟩

/-- C7: any exception from the AI provider call other than an
already-typed AIServiceError is wrapped as an AIServiceError whose
technical message holds the raw text, whose details carry the user
id, and whose fixed generic user message is all the dispatched 503
response body contains — the body is a constant independent of the
raw exception text, which together with the user id is preserved in
the server-side logs. -/
theorem C7_ai_failure_isolation (uid m : String) :
    workoutPlanResponse uid (.otherError m)
      = ⟨503, "Failed to generate workout plan. Please try again later."⟩
    ∧ create_workout_plan uid (.otherError m)
      = .error ⟨.aiService, "Workout plan generation failed: " ++ m,
          some "Failed to generate workout plan. Please try again later.",
          [("user_id", uid)]⟩
    ∧ create_workout_plan_logs uid (.otherError m)
      = ["Workout plan generation failed for user " ++ uid,
         "AI service error: Workout plan generation failed: " ++ m] :=
  ⟨rfl, rfl, rfl⟩

/-- C8 counterexample: a nutrition-plan request with weight_lbs = 1000
is answered 422, not 400; and the same value sent to the weight-log
endpoint, whose schema declares no range, is accepted with a
database write. -/
theorem C8_out_of_range_weight_not_400 :
    (nutritionPlanEndpoint "u1" overweightNutritionRequest (.ok "plan")).status = 422
    ∧ (nutritionPlanEndpoint "u1" overweightNutritionRequest (.ok "plan")).status ≠ 400
    ∧ (postWeightEndpoint [] "u1" ⟨100, some 1000, none, []⟩ 1).1.status = 200
    ∧ (postWeightEndpoint [] "u1" ⟨100, some 1000, none, []⟩ 1).2
        = [⟨1, "u1", 100, some 1000, none, []⟩] := by decide

/-- C8 (amended): an out-of-range weight_lbs is rejected only where a
range is declared — the nutrition-plan schema — and there with the
framework's schema-validation status 422 carrying the failing field
name, before any handler logic; the weight-log schema declares no
range, so every well-typed payload is accepted and written. -/
theorem C8_weight_validation (uid : String) (r : NutritionPlanRequest)
    (call : AIOutcome) (db : List WeightLog) (uid2 : String)
    (w : WeightLogCreate) (nid : Nat)
    (hw : ¬((50 : Rat) ≤ r.weight_lbs ∧ r.weight_lbs ≤ (700 : Rat))) :
    "weight_lbs" ∈ nutritionPlanRequestErrors r
    ∧ (nutritionPlanEndpoint uid r call).status = 422
    ∧ postWeightEndpoint db uid2 w nid
        = (⟨200, "weight log " ++ toString nid⟩,
           db ++ [⟨nid, uid2, w.date, w.weight_lbs, w.body_fat_pct,
             w.measurements⟩]) := by
  have hmem : "weight_lbs" ∈ nutritionPlanRequestErrors r := by
    unfold nutritionPlanRequestErrors
    rw [if_pos hw]
    simp
  refine ⟨hmem, ?_, rfl⟩
  cases hE : nutritionPlanRequestErrors r with
  | nil => rw [hE] at hmem; cases hmem
  | cons a t => simp [nutritionPlanEndpoint, hE, schemaValidationResponse]

/-- C8 witness: the amended statement applied at weight_lbs = 30,
below the declared lower bound. -/
theorem C8_weight_validation_witness :
    "weight_lbs" ∈ nutritionPlanRequestErrors ⟨"cut fat", 30, "active", none⟩
    ∧ (nutritionPlanEndpoint "u3" ⟨"cut fat", 30, "active", none⟩
        (.ok "plan")).status = 422 := by
  have h := C8_weight_validation "u3" ⟨"cut fat", 30, "active", none⟩
    (.ok "plan") [] "u3" ⟨1, none, none, []⟩ 1 (by decide)
  exact ⟨h.1, h.2.1⟩

/-- Helper: the sanitized fallback address is never empty, so the
remote-address resolver always returns a non-empty string. -/
theorem get_remote_address_ne_empty (r : RequestCtx) :
    get_remote_address r ≠ "" := by
  unfold get_remote_address
  cases hC : r.clientHost with
  | none => decide
  | some h =>
      show (if h = "" then "127.0.0.1" else h) ≠ ""
      by_cases hh : h = ""
      · rw [if_pos hh]; decide
      · rw [if_neg hh]; exact hh

/-- Helper: a string with the user tag in front is never empty. -/
theorem user_tag_ne_empty (i : String) : "user:" ++ i ≠ "" := by
  intro h
  have h2 : ("user:" ++ i).length = ("" : String).length :=
    congrArg String.length h
  rw [String.length_append] at h2
  have h3 : ("user:" : String).length = 5 := rfl
  have h4 : ("" : String).length = 0 := rfl
  omega

/-- C9: the identifier resolver always returns a non-empty string,
returning the user-tagged id exactly when an authenticated
principal with an id is attached and the remote address otherwise —
both when no principal is attached and when the attached principal
lacks an id — and it is deterministic in the (principal, source
address) pair. -/
theorem C9_identifier_resolver (r r2 : RequestCtx) :
    get_user_identifier r ≠ ""
    ∧ (∀ u i, r.stateUser = some u → u.id = some i →
        get_user_identifier r = "user:" ++ i)
    ∧ (∀ u, r.stateUser = some u → u.id = none →
        get_user_identifier r = get_remote_address r)
    ∧ (r.stateUser = none → get_user_identifier r = get_remote_address r)
    ∧ (r.stateUser = r2.stateUser → r.clientHost = r2.clientHost →
        get_user_identifier r = get_user_identifier r2) := by
  refine ⟨?_, ?_, ?_, ?_, ?_⟩
  · rcases hS : r.stateUser with _ | u
    · simpa [get_user_identifier, hS] using get_remote_address_ne_empty r
    · rcases hI : u.id with _ | i
      · simpa [get_user_identifier, hS, hI] using get_remote_address_ne_empty r
      · simpa [get_user_identifier, hS, hI] using user_tag_ne_empty i
  · intro u i hu hi
    simp [get_user_identifier, hu, hi]
  · intro u hu hi
    simp [get_user_identifier, hu, hi]
  · intro hN
    simp [get_user_identifier, hN]
  · intro h1 h2
    unfold get_user_identifier get_remote_address
    rw [h1, h2]

/-- C9 witness: the resolver evaluated at an authenticated request, an
attached principal without an id, an unauthenticated request, and
two requests differing only in path and headers. -/
theorem C9_identifier_resolver_witness :
    get_user_identifier ⟨some ⟨some "42"⟩, some "203.0.113.9", "/api/weight", []⟩
      = "user:42"
    ∧ get_user_identifier ⟨some ⟨none⟩, some "203.0.113.9", "/api/weight", []⟩
      = get_remote_address ⟨some ⟨none⟩, some "203.0.113.9", "/api/weight", []⟩
    ∧ get_user_identifier ⟨none, some "203.0.113.9", "/api/weight", []⟩
      = get_remote_address ⟨none, some "203.0.113.9", "/api/weight", []⟩
    ∧ get_user_identifier ⟨some ⟨some "42"⟩, some "203.0.113.9", "/api/weight", []⟩
      = get_user_identifier ⟨some ⟨some "42"⟩, some "203.0.113.9", "/dashboard",
          [("hx-request", "true")]⟩ := by
  refine ⟨?_, ?_, ?_, ?_⟩
  · exact (C9_identifier_resolver
      ⟨some ⟨some "42"⟩, some "203.0.113.9", "/api/weight", []⟩
      ⟨some ⟨some "42"⟩, some "203.0.113.9", "/api/weight", []⟩).2.1
      ⟨some "42"⟩ "42" rfl rfl
  · exact (C9_identifier_resolver
      ⟨some ⟨none⟩, some "203.0.113.9", "/api/weight", []⟩
      ⟨some ⟨none⟩, some "203.0.113.9", "/api/weight", []⟩).2.2.1
      ⟨none⟩ rfl rfl
  · exact (C9_identifier_resolver
      ⟨none, some "203.0.113.9", "/api/weight", []⟩
      ⟨none, some "203.0.113.9", "/api/weight", []⟩).2.2.2.1 rfl
  · exact (C9_identifier_resolver
      ⟨some ⟨some "42"⟩, some "203.0.113.9", "/api/weight", []⟩
      ⟨some ⟨some "42"⟩, some "203.0.113.9", "/dashboard",
        [("hx-request", "true")]⟩).2.2.2.2 rfl rfl

/-- Helper: membership after descending insertion comes from the
inserted element or the original list. -/
theorem mem_insertByDesc {α : Type} (key : α → Nat) (b a : α) (l : List α)
    (h : a ∈ insertByDesc key b l) : a = b ∨ a ∈ l := by
  induction l with
  | nil =>
      simp [insertByDesc] at h
      exact Or.inl h
  | cons c rest ih =>
      simp only [insertByDesc] at h
      split at h
      · rcases List.mem_cons.1 h with h1 | h1
        · exact Or.inl h1
        · exact Or.inr h1
      · rcases List.mem_cons.1 h with h1 | h1
        · exact Or.inr (List.mem_cons.2 (Or.inl h1))
        · rcases ih h1 with h2 | h2
          · exact Or.inl h2
          · exact Or.inr (List.mem_cons.2 (Or.inr h2))

/-- Helper: the descending sort permutes, so membership is
preserved. -/
theorem mem_sortByDesc {α : Type} (key : α → Nat) (a : α) (l : List α)
    (h : a ∈ sortByDesc key l) : a ∈ l := by
  induction l with
  | nil => simp [sortByDesc] at h
  | cons c rest ih =>
      simp only [sortByDesc] at h
      rcases mem_insertByDesc key c a _ h with h1 | h1
      · exact List.mem_cons.2 (Or.inl h1)
      · exact List.mem_cons.2 (Or.inr (ih h1))

/-- Helper: any element surviving filter-by-owner, descending sort and
take belongs to the owner. -/
theorem ownership_of_query {α : Type} (key : α → Nat) (owner : α → String)
    (db : List α) (uid : String) (lim : Nat) (x : α)
    (hx : x ∈ (sortByDesc key (db.filter (fun y => owner y = uid))).take lim) :
    owner x = uid := by
  have h1 := mem_sortByDesc key x _ (List.mem_of_mem_take hx)
  exact of_decide_eq_true (List.mem_filter.1 h1).2

/-- C10: every record returned by the weight, meal and workout listing
queries belongs to the requesting user, for any database contents
and any limit parameter. -/
theorem C10_listing_ownership (db1 : List WeightLog) (db2 : List MealLog)
    (db3 : List WorkoutSession) (uid : String) (lim : Nat) :
    (∀ w ∈ get_weight_logs db1 uid lim, w.user_id = uid)
    ∧ (∀ m ∈ get_meal_logs db2 uid lim, m.user_id = uid)
    ∧ (∀ w ∈ get_workout_sessions db3 uid lim, w.user_id = uid) := by
  refine ⟨?_, ?_, ?_⟩
  · intro x hx
    unfold get_weight_logs at hx
    exact ownership_of_query WeightLog.date (fun y => y.user_id) db1 uid lim x hx
  · intro x hx
    unfold get_meal_logs at hx
    exact ownership_of_query MealLog.date (fun y => y.user_id) db2 uid lim x hx
  · intro x hx
    unfold get_workout_sessions at hx
    exact ownership_of_query (fun y => y.completed_date.getD 0)
      (fun y => y.user_id) db3 uid lim x hx

/-- C10 witness: the weight-log query over a two-user database returns
a record of the requesting user, and the theorem yields its
ownership. -/
theorem C10_listing_ownership_witness :
    (⟨2, "alice", 7, none, none, []⟩ : WeightLog).user_id = "alice" :=
  (C10_listing_ownership
    [⟨1, "bob", 5, none, none, []⟩, ⟨2, "alice", 7, none, none, []⟩]
    [] [] "alice" 10).1
    ⟨2, "alice", 7, none, none, []⟩ (by decide)

end FitAgent
